import Mathlib

/-!
Verification development for the document/collection orchestration layer of
revlogica-orchestrator: a shallow embedding of
`app/infrastructure/repositories/existdb_repository.py` (ExistDBRepository)
and `app/application/services/existdb_service.py` (ExistDBService), together
with an ideal model of the remote eXist-DB REST store as described by the
external-interface contract (HEAD/GET/PUT/DELETE on collection and document
paths, 2xx on success, 404 when absent).

Effects are modelled by explicit state passing: a computation of type `M α`
takes a `World` (remote store contents, a script of injected network
outcomes, and a trace of issued requests) and returns either a value or a
Python-exception value, together with the updated world.  Python exception
classes become constructors of `PyErr`; an `except httpx.HTTPStatusError`
block becomes the combinator `tryHttpStatus`, which intercepts exactly the
`httpStatus` constructor, mirroring the fact that a Python `except` clause
catches only matching classes (in particular, `httpx.TimeoutException` /
`httpx.RequestError` are NOT subclasses of `httpx.HTTPStatusError`).
-/

/-- HTTP methods used by the repository (GET, PUT, DELETE, HEAD). -/
inductive Method where
  | GET
  | PUT
  | DELETE
  | HEAD
deriving Repr, DecidableEq

/-- The resource a request addresses.  The repository builds document URLs as
`{base}/{collection}/{name}` and collection URLs as `{base}/{collection}`;
we keep the path components structured. -/
inductive Target where
  | doc (collection name : String)
  | coll (name : String)
deriving Repr, DecidableEq

/-- A network request as issued by the httpx client: method, target path,
optional body, optional Content-Type header. -/
structure Request where
  method : Method
  target : Target
  body : Option String
  contentType : Option String
deriving Repr, DecidableEq

/-- An HTTP response: status code and body text. -/
structure HttpResponse where
  status : Nat
  body : String
deriving Repr, DecidableEq

/-- Python exception values crossing layer boundaries.
`httpStatus` embeds `httpx.HTTPStatusError`; `timeoutErr` embeds
`httpx.TimeoutException` (a transport error that is NOT an HTTPStatusError);
`xmlParseErr` embeds `lxml.etree.XMLSyntaxError`.  The remaining constructors
embed the domain exceptions of `app/domain/exceptions.py`
(ValidationError, ResourceNotFoundError, CollectionNotFoundError,
ResourceAlreadyExistsError, DatabaseError); exception messages are kept but
abbreviated (no interpolated names, no quote characters). -/
inductive PyErr where
  | httpStatus (status : Nat) (body : String)
  | timeoutErr
  | xmlParseErr
  | validation (msg : String)
  | resourceNotFound (msg : String)
  | collectionNotFound (msg : String)
  | resourceAlreadyExists (msg : String)
  | databaseErr (msg : String)
deriving Repr, DecidableEq

/-- Checks whether an exception value belongs to the closed domain taxonomy of
`app/domain/exceptions.py` (the five business fault kinds). -/
def isDomainFault : PyErr → Bool
  | PyErr.validation _ => true
  | PyErr.resourceNotFound _ => true
  | PyErr.collectionNotFound _ => true
  | PyErr.resourceAlreadyExists _ => true
  | PyErr.databaseErr _ => true
  | _ => false

/-- The remote store state: the set of existing collection paths and an
association of (collection, name) to document content. -/
structure Store where
  colls : List String
  docs : List ((String × String) × String)
deriving Repr, DecidableEq

/-- Content of document (c, n) in the store, if present. -/
def lookupDoc (st : Store) (c n : String) : Option String :=
  (st.docs.find? (fun p => p.1.1 == c && p.1.2 == n)).map (·.2)

/-- Store after writing content v to document (c, n) (create or overwrite). -/
def setDoc (st : Store) (c n v : String) : Store :=
  { st with docs := ((c, n), v) :: st.docs.filter (fun p => !(p.1.1 == c && p.1.2 == n)) }

/-- Store after removing document (c, n). -/
def removeDoc (st : Store) (c n : String) : Store :=
  { st with docs := st.docs.filter (fun p => !(p.1.1 == c && p.1.2 == n)) }

/-- Whether collection c exists in the store. -/
def hasColl (st : Store) (c : String) : Bool :=
  st.colls.contains c

/-- Store after creating collection c (idempotent). -/
def addColl (st : Store) (c : String) : Store :=
  if st.colls.contains c then st else { st with colls := c :: st.colls }

/-- Store after deleting collection c and all documents under it (recursive). -/
def removeColl (st : Store) (c : String) : Store :=
  { colls := st.colls.filter (fun x => !(x == c)),
    docs := st.docs.filter (fun p => !(p.1.1 == c)) }

/-- Names of the documents contained in collection c. -/
def docNames (st : Store) (c : String) : List String :=
  (st.docs.filter (fun p => p.1.1 == c)).map (fun p => p.1.2)

/-- Modelled from the spec: the XML listing document the store returns for a
GET on a collection path (external interface section 6); the exact XML shape
is outside the repository code, so we use a simple line-based encoding whose
first line marks a well-formed listing. -/
def listingBody (names : List String) : String :=
  String.intercalate "\n" ("exist-listing" :: names)

/-- Modelled from the spec: the lxml parse + XPath extraction
(`ET.fromstring` and `//exist:resource/@name`) that turns a listing response
body into the contained document names; `lxml` is an external library, so it
is modelled as the inverse of `listingBody`, failing (XMLSyntaxError) on any
body that is not a well-formed listing. -/
def parseListing (s : String) : Option (List String) :=
  match s.splitOn "\n" with
  | "exist-listing" :: names => some names
  | _ => none

/-- The ideal behaviour of the remote eXist-DB REST endpoint, from the
external-interface contract: HEAD/GET/DELETE answer 404 for an absent
resource and 2xx for a present one; PUT on a document path writes the body;
PUT on a collection path materializes the collection. -/
def idealRespond (st : Store) (req : Request) : HttpResponse × Store :=
  match req.method, req.target with
  | Method.HEAD, Target.doc c n =>
      match lookupDoc st c n with
      | some _ => (⟨200, ""⟩, st)
      | none => (⟨404, ""⟩, st)
  | Method.GET, Target.doc c n =>
      match lookupDoc st c n with
      | some v => (⟨200, v⟩, st)
      | none => (⟨404, ""⟩, st)
  | Method.PUT, Target.doc c n =>
      (⟨201, ""⟩, setDoc st c n (req.body.getD ""))
  | Method.DELETE, Target.doc c n =>
      match lookupDoc st c n with
      | some _ => (⟨200, ""⟩, removeDoc st c n)
      | none => (⟨404, ""⟩, st)
  | Method.HEAD, Target.coll c =>
      if hasColl st c then (⟨200, ""⟩, st) else (⟨404, ""⟩, st)
  | Method.GET, Target.coll c =>
      if hasColl st c then (⟨200, listingBody (docNames st c)⟩, st)
      else (⟨404, ""⟩, st)
  | Method.PUT, Target.coll c =>
      (⟨201, ""⟩, addColl st c)
  | Method.DELETE, Target.coll c =>
      if hasColl st c then (⟨200, ""⟩, removeColl st c) else (⟨404, ""⟩, st)

/-- A network outcome injected by the environment for one client call:
`ideal` lets the ideal store answer; `status` forces an arbitrary response
(e.g. 401, 500) without touching the store; `timeout` makes the call raise
`httpx.TimeoutException` with no response obtained. -/
inductive NetEvent where
  | ideal
  | status (code : Nat) (body : String)
  | timeout
deriving Repr, DecidableEq

/-- The world a computation runs in: the remote store, the script of injected
network outcomes (consumed one per client call, empty script = ideal store),
and the trace of requests issued so far. -/
structure World where
  store : Store
  script : List NetEvent
  trace : List Request
deriving Repr, DecidableEq

/-- A Python computation: state passing over `World`, returning a value or a
raised exception.  Exceptions do not roll state back, as in Python. -/
def M (α : Type) : Type :=
  World → Except PyErr α × World

/-- Returning a value. -/
def M.pure {α : Type} (a : α) : M α :=
  fun w => (Except.ok a, w)

/-- Sequencing: if the first computation raises, the exception propagates and
the second never runs. -/
def M.bind {α β : Type} (x : M α) (f : α → M β) : M β :=
  fun w =>
    match x w with
    | (Except.ok a, w2) => f a w2
    | (Except.error e, w2) => (Except.error e, w2)

/-- Raising an exception. -/
def M.raise {α : Type} (e : PyErr) : M α :=
  fun w => (Except.error e, w)

/-- An `except httpx.HTTPStatusError as e:` block: intercepts exactly the
`httpStatus` constructor (passing its status code and body to the handler);
every other exception — in particular `timeoutErr` — propagates unhandled. -/
def tryHttpStatus {α : Type} (body : M α) (handler : Nat → String → M α) : M α :=
  fun w =>
    match body w with
    | (Except.error (PyErr.httpStatus s b), w2) => handler s b w2
    | r => r

/-- An `except ET.XMLSyntaxError:` block: intercepts exactly `xmlParseErr`. -/
def tryXmlParse {α : Type} (body : M α) (handler : M α) : M α :=
  fun w =>
    match body w with
    | (Except.error PyErr.xmlParseErr, w2) => handler w2
    | r => r

/-- One httpx client call (`self.client.get/put/delete/head`): records the
request in the trace, then consumes the next scripted outcome (ideal store
response when the script is exhausted).  A timeout raises; any received
response is returned without interpretation (no raise here). -/
def netCall (req : Request) : M HttpResponse :=
  fun w =>
    let w1 : World := { w with trace := w.trace ++ [req] }
    match w1.script with
    | [] =>
        (Except.ok (idealRespond w1.store req).1,
         { w1 with store := (idealRespond w1.store req).2 })
    | NetEvent.ideal :: rest =>
        (Except.ok (idealRespond w1.store req).1,
         { w1 with store := (idealRespond w1.store req).2, script := rest })
    | NetEvent.status s b :: rest =>
        (Except.ok ⟨s, b⟩, { w1 with script := rest })
    | NetEvent.timeout :: rest =>
        (Except.error PyErr.timeoutErr, { w1 with script := rest })

/-- Whether a status code is a 2xx success (httpx `Response.is_success`). -/
def is2xx (s : Nat) : Bool :=
  200 ≤ s && s < 300

/-- httpx `Response.raise_for_status()`: raises `HTTPStatusError` exactly for
non-2xx responses. -/
def HttpResponse.raise_for_status (r : HttpResponse) : M Unit :=
  if is2xx r.status then M.pure () else M.raise (PyErr.httpStatus r.status r.body)

/-- The GET request for a document path, as built by `ExistDBRepository.get`. -/
def getDocReq (c n : String) : Request :=
  ⟨Method.GET, Target.doc c n, none, none⟩

/-- The HEAD probe on a document path (`ExistDBRepository.exists`). -/
def headDocReq (c n : String) : Request :=
  ⟨Method.HEAD, Target.doc c n, none, none⟩

/-- The PUT of document content with the XML content-type header
(`ExistDBRepository.put`). -/
def putDocReq (c n content : String) : Request :=
  ⟨Method.PUT, Target.doc c n, some content, some "application/xml"⟩

/-- The DELETE of a document path (`ExistDBRepository.delete`). -/
def delDocReq (c n : String) : Request :=
  ⟨Method.DELETE, Target.doc c n, none, none⟩

/-- The HEAD probe on a collection path
(`ExistDBRepository._collection_exists`). -/
def headCollReq (c : String) : Request :=
  ⟨Method.HEAD, Target.coll c, none, none⟩

/-- The minimal collection-descriptor body PUT by
`ExistDBRepository.create_collection`. -/
def collectionDescriptor : String :=
  "<collection xmlns=\"http://exist-db.org/collection-config/1.0\"/>"

/-- The PUT materializing a collection (`ExistDBRepository.create_collection`). -/
def putCollReq (c : String) : Request :=
  ⟨Method.PUT, Target.coll c, some collectionDescriptor, some "application/xml"⟩

/-- The DELETE of a collection path (`ExistDBRepository.delete_collection`). -/
def delCollReq (c : String) : Request :=
  ⟨Method.DELETE, Target.coll c, none, none⟩

/-- The GET on a collection path used for listing
(`ExistDBRepository.list_documents`). -/
def getCollReq (c : String) : Request :=
  ⟨Method.GET, Target.coll c, none, none⟩

/-- `ExistDBRepository.get` (existdb_repository.py lines 49-67): GET the
document URL, `raise_for_status`, return the body.  The `except` block only
logs and re-raises, which is the identity on the exception flow. -/
def ExistDBRepository.get (c n : String) : M String :=
  M.bind (netCall (getDocReq c n)) (fun r =>
    M.bind r.raise_for_status (fun _ => M.pure r.body))

/-- `ExistDBRepository._collection_exists` (lines 266-280): HEAD the
collection path; 2xx means true; a 404 `HTTPStatusError` is absorbed into
false; any other `HTTPStatusError` is re-raised. -/
def ExistDBRepository._collection_exists (c : String) : M Bool :=
  tryHttpStatus
    (M.bind (netCall (headCollReq c)) (fun r =>
      M.bind r.raise_for_status (fun _ => M.pure true)))
    (fun s b => if s == 404 then M.pure false else M.raise (PyErr.httpStatus s b))

/-- `ExistDBRepository.create_collection` (lines 119-149): check-then-act —
probe collection existence, PUT the collection descriptor only if absent,
do nothing if present.  The surrounding `except` block logs and re-raises
(identity). -/
def ExistDBRepository.create_collection (c : String) : M Unit :=
  M.bind (ExistDBRepository._collection_exists c) (fun present =>
    if present then M.pure ()
    else
      M.bind (netCall (putCollReq c)) (fun r => r.raise_for_status))

/-- `ExistDBRepository.put` (lines 69-97): first ensure the collection exists
via `create_collection`, then PUT the content with the
`Content-Type: application/xml` header and `raise_for_status`. -/
def ExistDBRepository.put (c n content : String) : M Unit :=
  M.bind (ExistDBRepository.create_collection c) (fun _ =>
    M.bind (netCall (putDocReq c n content)) (fun r => r.raise_for_status))

/-- `ExistDBRepository.delete` (lines 99-117): DELETE the document URL and
`raise_for_status` (the `except` block only logs and re-raises). -/
def ExistDBRepository.delete (c n : String) : M Unit :=
  M.bind (netCall (delDocReq c n)) (fun r => r.raise_for_status)

/-- `ExistDBRepository.delete_collection` (lines 151-172): DELETE the
collection path; a 404 response returns false before any raise; otherwise
`raise_for_status`, then return true.  The `except` blocks re-raise
(identity). -/
def ExistDBRepository.delete_collection (c : String) : M Bool :=
  M.bind (netCall (delCollReq c)) (fun r =>
    if r.status == 404 then M.pure false
    else M.bind r.raise_for_status (fun _ => M.pure true))

/-- `ExistDBRepository.exists` (lines 243-264; named `exists_doc` here since
`exists` clashes with Lean vocabulary): HEAD the document URL; 2xx means
true; a 404 `HTTPStatusError` is absorbed into false; any other
`HTTPStatusError` is re-raised. -/
def ExistDBRepository.exists_doc (c n : String) : M Bool :=
  tryHttpStatus
    (M.bind (netCall (headDocReq c n)) (fun r =>
      M.bind r.raise_for_status (fun _ => M.pure true)))
    (fun s b => if s == 404 then M.pure false else M.raise (PyErr.httpStatus s b))

/-- `ExistDBRepository.list_documents` (lines 210-241): GET the collection
URL, `raise_for_status`, parse the XML listing and extract the document
names; a malformed body raises `XMLSyntaxError` (re-raised for the service
layer). -/
def ExistDBRepository.list_documents (c : String) : M (List String) :=
  M.bind (netCall (getCollReq c)) (fun r =>
    M.bind r.raise_for_status (fun _ =>
      match parseListing r.body with
      | some names => M.pure names
      | none => M.raise PyErr.xmlParseErr))

/-- `ExistDBService.document_exists` (existdb_service.py lines 180-192):
delegate to the repository probe; any `HTTPStatusError` becomes
`DatabaseError`. -/
def ExistDBService.document_exists (c n : String) : M Bool :=
  tryHttpStatus (ExistDBRepository.exists_doc c n)
    (fun _ _ =>
      M.raise (PyErr.databaseErr
        "A database error occurred while checking for the document."))

/-- `ExistDBService.create_document` (lines 44-76): reject empty inputs with
`ValidationError` before any repository call (`not all([...])` — Python
string truthiness makes the empty string the only falsy string); then
look-before-you-leap via `document_exists`, raising
`ResourceAlreadyExistsError` when present; otherwise delegate to the
repository `put`, translating any `HTTPStatusError` into `DatabaseError`. -/
def ExistDBService.create_document (c n content : String) : M Unit :=
  if c == "" || n == "" || content == "" then
    M.raise (PyErr.validation "Collection, document_name, and content are required.")
  else
    M.bind (ExistDBService.document_exists c n) (fun present =>
      if present then
        M.raise (PyErr.resourceAlreadyExists
          "Cannot create because the document already exists.")
      else
        tryHttpStatus (ExistDBRepository.put c n content)
          (fun _ _ =>
            M.raise (PyErr.databaseErr
              "Failed to create document due to a database error.")))

/-- `ExistDBService.get_document` (lines 78-99): delegate to the repository
`get`; a 404 `HTTPStatusError` becomes `ResourceNotFoundError`, any other
`HTTPStatusError` becomes `DatabaseError`. -/
def ExistDBService.get_document (c n : String) : M String :=
  tryHttpStatus (ExistDBRepository.get c n)
    (fun s _b =>
      if s == 404 then
        M.raise (PyErr.resourceNotFound "The document was not found.")
      else
        M.raise (PyErr.databaseErr
          "A database error occurred while fetching the document."))

/-- `ExistDBService.update_document` (lines 101-129): a repository `get`
confirms existence (its body is discarded), then the repository `put` writes
the new content; within the single `except` block a 404 becomes
`ResourceNotFoundError` and any other `HTTPStatusError` becomes
`DatabaseError`. -/
def ExistDBService.update_document (c n newContent : String) : M Unit :=
  tryHttpStatus
    (M.bind (ExistDBRepository.get c n) (fun _ =>
      ExistDBRepository.put c n newContent))
    (fun s _b =>
      if s == 404 then
        M.raise (PyErr.resourceNotFound "Cannot update because document was not found.")
      else
        M.raise (PyErr.databaseErr
          "A database error occurred while updating the document."))

/-- `ExistDBService.delete_document` (lines 131-152): delegate to the
repository `delete`; 404 becomes `ResourceNotFoundError`, any other
`HTTPStatusError` becomes `DatabaseError`. -/
def ExistDBService.delete_document (c n : String) : M Unit :=
  tryHttpStatus (ExistDBRepository.delete c n)
    (fun s _b =>
      if s == 404 then
        M.raise (PyErr.resourceNotFound "Cannot delete because document was not found.")
      else
        M.raise (PyErr.databaseErr
          "A database error occurred while deleting the document."))

/-- `ExistDBService.list_documents_in_collection` (lines 154-178): delegate
to the repository listing; a 404 `HTTPStatusError` becomes
`CollectionNotFoundError`, any other `HTTPStatusError` becomes
`DatabaseError`, and an `XMLSyntaxError` becomes `DatabaseError`.  The two
`except` clauses are modelled as nested handlers; since each handler raises
only domain errors, the nesting order is immaterial. -/
def ExistDBService.list_documents_in_collection (c : String) : M (List String) :=
  tryXmlParse
    (tryHttpStatus (ExistDBRepository.list_documents c)
      (fun s _b =>
        if s == 404 then
          M.raise (PyErr.collectionNotFound "The collection was not found.")
        else
          M.raise (PyErr.databaseErr
            "A database error occurred while listing documents.")))
    (M.raise (PyErr.databaseErr "Failed to parse the database response."))

/-! ### Store lemmas -/

theorem lookupDoc_setDoc_self (st : Store) (c n v : String) :
    lookupDoc (setDoc st c n v) c n = some v := by
  simp [lookupDoc, setDoc, List.find?]

theorem lookupDoc_addColl (st : Store) (c c' n' : String) :
    lookupDoc (addColl st c) c' n' = lookupDoc st c' n' := by
  unfold addColl lookupDoc
  split <;> rfl

theorem addColl_of_hasColl (st : Store) (c : String) (h : hasColl st c = true) :
    addColl st c = st := by
  unfold addColl
  rw [if_pos]
  exact h

theorem hasColl_addColl_self (st : Store) (c : String) :
    hasColl (addColl st c) c = true := by
  unfold addColl hasColl
  split
  · assumption
  · simp [List.contains_cons]

theorem hasColl_setDoc (st : Store) (c n v : String) (c' : String) :
    hasColl (setDoc st c n v) c' = hasColl st c' := rfl

/-! ### Ideal-world run lemmas for the repository -/

theorem netCall_ideal (req : Request) (st : Store) (tr : List Request) :
    netCall req ⟨st, [], tr⟩ =
      (Except.ok (idealRespond st req).1,
       ⟨(idealRespond st req).2, [], tr ++ [req]⟩) := rfl

theorem netCall_status (req : Request) (st : Store) (s : Nat) (b : String)
    (rest : List NetEvent) (tr : List Request) :
    netCall req ⟨st, NetEvent.status s b :: rest, tr⟩ =
      (Except.ok ⟨s, b⟩, ⟨st, rest, tr ++ [req]⟩) := rfl

theorem netCall_timeout (req : Request) (st : Store)
    (rest : List NetEvent) (tr : List Request) :
    netCall req ⟨st, NetEvent.timeout :: rest, tr⟩ =
      (Except.error PyErr.timeoutErr, ⟨st, rest, tr ++ [req]⟩) := rfl

theorem repo_get_ideal_present (st : Store) (tr : List Request) (c n v : String)
    (h : lookupDoc st c n = some v) :
    ExistDBRepository.get c n ⟨st, [], tr⟩ =
      (Except.ok v, ⟨st, [], tr ++ [getDocReq c n]⟩) := by
  simp [ExistDBRepository.get, M.bind, netCall, idealRespond, getDocReq, h,
        HttpResponse.raise_for_status, is2xx, M.pure]

theorem repo_get_ideal_absent (st : Store) (tr : List Request) (c n : String)
    (h : lookupDoc st c n = none) :
    ExistDBRepository.get c n ⟨st, [], tr⟩ =
      (Except.error (PyErr.httpStatus 404 ""), ⟨st, [], tr ++ [getDocReq c n]⟩) := by
  simp [ExistDBRepository.get, M.bind, netCall, idealRespond, getDocReq, h,
        HttpResponse.raise_for_status, is2xx, M.pure, M.raise]

theorem exists_doc_ideal_present (st : Store) (tr : List Request) (c n v : String)
    (h : lookupDoc st c n = some v) :
    ExistDBRepository.exists_doc c n ⟨st, [], tr⟩ =
      (Except.ok true, ⟨st, [], tr ++ [headDocReq c n]⟩) := by
  simp [ExistDBRepository.exists_doc, tryHttpStatus, M.bind, netCall, idealRespond,
        headDocReq, h, HttpResponse.raise_for_status, is2xx, M.pure]

theorem exists_doc_ideal_absent (st : Store) (tr : List Request) (c n : String)
    (h : lookupDoc st c n = none) :
    ExistDBRepository.exists_doc c n ⟨st, [], tr⟩ =
      (Except.ok false, ⟨st, [], tr ++ [headDocReq c n]⟩) := by
  simp [ExistDBRepository.exists_doc, tryHttpStatus, M.bind, netCall, idealRespond,
        headDocReq, h, HttpResponse.raise_for_status, is2xx, M.pure, M.raise]

theorem create_collection_ideal_present (st : Store) (tr : List Request) (c : String)
    (h : hasColl st c = true) :
    ExistDBRepository.create_collection c ⟨st, [], tr⟩ =
      (Except.ok (), ⟨st, [], tr ++ [headCollReq c]⟩) := by
  simp [ExistDBRepository.create_collection, ExistDBRepository._collection_exists,
        tryHttpStatus, M.bind, netCall, idealRespond, headCollReq, h,
        HttpResponse.raise_for_status, is2xx, M.pure]

theorem create_collection_ideal_absent (st : Store) (tr : List Request) (c : String)
    (h : hasColl st c = false) :
    ExistDBRepository.create_collection c ⟨st, [], tr⟩ =
      (Except.ok (), ⟨addColl st c, [], tr ++ [headCollReq c, putCollReq c]⟩) := by
  simp [ExistDBRepository.create_collection, ExistDBRepository._collection_exists,
        tryHttpStatus, M.bind, netCall, idealRespond, headCollReq, putCollReq, h,
        HttpResponse.raise_for_status, is2xx, M.pure, M.raise]

theorem repo_put_ideal (st : Store) (tr : List Request) (c n content : String) :
    ExistDBRepository.put c n content ⟨st, [], tr⟩ =
      (Except.ok (),
       ⟨setDoc (addColl st c) c n content, [],
        tr ++ (if hasColl st c then [headCollReq c] else [headCollReq c, putCollReq c])
           ++ [putDocReq c n content]⟩) := by
  by_cases h : hasColl st c = true
  · rw [ExistDBRepository.put, M.bind]
    rw [create_collection_ideal_present st tr c h]
    rw [addColl_of_hasColl st c h]
    simp [M.bind, netCall, idealRespond, putDocReq, h,
          HttpResponse.raise_for_status, is2xx, M.pure]
  · rw [ExistDBRepository.put, M.bind]
    rw [create_collection_ideal_absent st tr c (by simpa using h)]
    simp [M.bind, netCall, idealRespond, putDocReq, h,
          HttpResponse.raise_for_status, is2xx, M.pure]

theorem repo_delete_ideal_present (st : Store) (tr : List Request) (c n v : String)
    (h : lookupDoc st c n = some v) :
    ExistDBRepository.delete c n ⟨st, [], tr⟩ =
      (Except.ok (), ⟨removeDoc st c n, [], tr ++ [delDocReq c n]⟩) := by
  simp [ExistDBRepository.delete, M.bind, netCall, idealRespond, delDocReq, h,
        HttpResponse.raise_for_status, is2xx, M.pure]

theorem repo_delete_ideal_absent (st : Store) (tr : List Request) (c n : String)
    (h : lookupDoc st c n = none) :
    ExistDBRepository.delete c n ⟨st, [], tr⟩ =
      (Except.error (PyErr.httpStatus 404 ""), ⟨st, [], tr ++ [delDocReq c n]⟩) := by
  simp [ExistDBRepository.delete, M.bind, netCall, idealRespond, delDocReq, h,
        HttpResponse.raise_for_status, is2xx, M.pure, M.raise]

/-! ### Error-taxonomy machinery: which exception kinds a computation can raise -/

/-- Every exception the computation can raise, in any world, satisfies P. -/
def ErrWithin {α : Type} (P : PyErr → Prop) (m : M α) : Prop :=
  ∀ w e w2, m w = (Except.error e, w2) → P e

theorem errWithin_pure {α : Type} (P : PyErr → Prop) (a : α) :
    ErrWithin P (M.pure a) := by
  intro w e w2 h
  simp [M.pure] at h

theorem errWithin_raise {α : Type} (P : PyErr → Prop) (e : PyErr) (h : P e) :
    ErrWithin P (M.raise (α := α) e) := by
  intro w e' w2 he
  simp [M.raise] at he
  rw [← he.1]
  exact h

theorem errWithin_bind {α β : Type} (P : PyErr → Prop) (x : M α) (f : α → M β)
    (hx : ErrWithin P x) (hf : ∀ a, ErrWithin P (f a)) :
    ErrWithin P (M.bind x f) := by
  intro w e w2 h
  unfold M.bind at h
  rcases hx' : x w with ⟨res, w1⟩
  rw [hx'] at h
  cases res with
  | ok a => exact hf a w1 e w2 h
  | error e' =>
      simp at h
      rw [← h.1]
      exact hx w e' w1 hx'

theorem errWithin_netCall (P : PyErr → Prop) (req : Request)
    (h : P PyErr.timeoutErr) : ErrWithin P (netCall req) := by
  intro w e w2 hw
  unfold netCall at hw
  rcases w with ⟨st, script, tr⟩
  cases script with
  | nil => simp at hw
  | cons ev rest =>
      cases ev <;> simp at hw
      rw [← hw.1]
      exact h

theorem errWithin_rfs (P : PyErr → Prop) (r : HttpResponse)
    (h : ∀ s b, P (PyErr.httpStatus s b)) :
    ErrWithin P r.raise_for_status := by
  intro w e w2 hw
  unfold HttpResponse.raise_for_status at hw
  split at hw
  · simp [M.pure] at hw
  · simp [M.raise] at hw
    rw [← hw.1]
    exact h r.status r.body

theorem errWithin_mono {α : Type} (P Q : PyErr → Prop) (m : M α)
    (hpq : ∀ e, P e → Q e) (hm : ErrWithin P m) : ErrWithin Q m :=
  fun w e w2 h => hpq e (hm w e w2 h)

theorem errWithin_tryHttpStatus {α : Type} (P Q : PyErr → Prop)
    (body : M α) (handler : Nat → String → M α)
    (hb : ErrWithin P body) (hh : ∀ s b, ErrWithin Q (handler s b)) :
    ErrWithin (fun e => (P e ∧ ∀ s b, e ≠ PyErr.httpStatus s b) ∨ Q e)
      (tryHttpStatus body handler) := by
  intro w e w2 h
  unfold tryHttpStatus at h
  rcases hbody : body w with ⟨res, w1⟩
  rw [hbody] at h
  have hbP : ∀ e', res = Except.error e' → P e' := by
    intro e' he'
    exact hb w e' w1 (by rw [hbody, he'])
  cases res with
  | ok a => simp at h
  | error e' =>
      cases e' with
      | httpStatus s b => exact Or.inr (hh s b w1 e w2 h)
      | timeoutErr =>
          simp at h
          refine Or.inl ⟨?_, ?_⟩
          · rw [← h.1]; exact hbP _ rfl
          · rw [← h.1]; intro s b hc; cases hc
      | xmlParseErr =>
          simp at h
          refine Or.inl ⟨?_, ?_⟩
          · rw [← h.1]; exact hbP _ rfl
          · rw [← h.1]; intro s b hc; cases hc
      | validation m =>
          simp at h
          refine Or.inl ⟨?_, ?_⟩
          · rw [← h.1]; exact hbP _ rfl
          · rw [← h.1]; intro s b hc; cases hc
      | resourceNotFound m =>
          simp at h
          refine Or.inl ⟨?_, ?_⟩
          · rw [← h.1]; exact hbP _ rfl
          · rw [← h.1]; intro s b hc; cases hc
      | collectionNotFound m =>
          simp at h
          refine Or.inl ⟨?_, ?_⟩
          · rw [← h.1]; exact hbP _ rfl
          · rw [← h.1]; intro s b hc; cases hc
      | resourceAlreadyExists m =>
          simp at h
          refine Or.inl ⟨?_, ?_⟩
          · rw [← h.1]; exact hbP _ rfl
          · rw [← h.1]; intro s b hc; cases hc
      | databaseErr m =>
          simp at h
          refine Or.inl ⟨?_, ?_⟩
          · rw [← h.1]; exact hbP _ rfl
          · rw [← h.1]; intro s b hc; cases hc

theorem errWithin_tryXmlParse {α : Type} (P Q : PyErr → Prop)
    (body : M α) (handler : M α)
    (hb : ErrWithin P body) (hh : ErrWithin Q handler) :
    ErrWithin (fun e => (P e ∧ e ≠ PyErr.xmlParseErr) ∨ Q e)
      (tryXmlParse body handler) := by
  intro w e w2 h
  unfold tryXmlParse at h
  rcases hbody : body w with ⟨res, w1⟩
  rw [hbody] at h
  have hbP : ∀ e', res = Except.error e' → P e' := by
    intro e' he'
    exact hb w e' w1 (by rw [hbody, he'])
  cases res with
  | ok a => simp at h
  | error e' =>
      cases e' with
      | xmlParseErr => exact Or.inr (hh w1 e w2 h)
      | httpStatus s b =>
          simp at h
          exact Or.inl ⟨by rw [← h.1]; exact hbP _ rfl, by rw [← h.1]; intro hc; cases hc⟩
      | timeoutErr =>
          simp at h
          exact Or.inl ⟨by rw [← h.1]; exact hbP _ rfl, by rw [← h.1]; intro hc; cases hc⟩
      | validation m =>
          simp at h
          exact Or.inl ⟨by rw [← h.1]; exact hbP _ rfl, by rw [← h.1]; intro hc; cases hc⟩
      | resourceNotFound m =>
          simp at h
          exact Or.inl ⟨by rw [← h.1]; exact hbP _ rfl, by rw [← h.1]; intro hc; cases hc⟩
      | collectionNotFound m =>
          simp at h
          exact Or.inl ⟨by rw [← h.1]; exact hbP _ rfl, by rw [← h.1]; intro hc; cases hc⟩
      | resourceAlreadyExists m =>
          simp at h
          exact Or.inl ⟨by rw [← h.1]; exact hbP _ rfl, by rw [← h.1]; intro hc; cases hc⟩
      | databaseErr m =>
          simp at h
          exact Or.inl ⟨by rw [← h.1]; exact hbP _ rfl, by rw [← h.1]; intro hc; cases hc⟩

theorem errWithin_ite {α : Type} (P : PyErr → Prop) (b : Bool) (x y : M α)
    (hx : ErrWithin P x) (hy : ErrWithin P y) :
    ErrWithin P (if b then x else y) := by
  cases b
  · simpa using hy
  · simpa using hx

/-- Exceptions the httpx transport itself can raise: a timeout (no response)
or an HTTP status error. -/
def isTransportErr (e : PyErr) : Prop :=
  e = PyErr.timeoutErr ∨ ∃ s b, e = PyErr.httpStatus s b

theorem errWithin_repo_get (c n : String) :
    ErrWithin isTransportErr (ExistDBRepository.get c n) := by
  unfold ExistDBRepository.get
  apply errWithin_bind
  · exact errWithin_netCall _ _ (Or.inl rfl)
  · intro r
    apply errWithin_bind
    · exact errWithin_rfs _ _ (fun s b => Or.inr ⟨s, b, rfl⟩)
    · intro u
      exact errWithin_pure _ _

theorem errWithin_repo_delete (c n : String) :
    ErrWithin isTransportErr (ExistDBRepository.delete c n) := by
  unfold ExistDBRepository.delete
  apply errWithin_bind
  · exact errWithin_netCall _ _ (Or.inl rfl)
  · intro r
    exact errWithin_rfs _ _ (fun s b => Or.inr ⟨s, b, rfl⟩)

theorem errWithin_collection_exists_repo (c : String) :
    ErrWithin isTransportErr (ExistDBRepository._collection_exists c) := by
  unfold ExistDBRepository._collection_exists
  apply errWithin_mono (fun e => (isTransportErr e ∧ ∀ s b, e ≠ PyErr.httpStatus s b)
      ∨ isTransportErr e)
  · intro e he
    rcases he with ⟨h1, _⟩ | h2
    · exact h1
    · exact h2
  · apply errWithin_tryHttpStatus
    · apply errWithin_bind
      · exact errWithin_netCall _ _ (Or.inl rfl)
      · intro r
        apply errWithin_bind
        · exact errWithin_rfs _ _ (fun s b => Or.inr ⟨s, b, rfl⟩)
        · intro u
          exact errWithin_pure _ _
    · intro s b
      apply errWithin_ite
      · exact errWithin_pure _ _
      · exact errWithin_raise _ _ (Or.inr ⟨s, b, rfl⟩)

theorem errWithin_exists_doc_repo (c n : String) :
    ErrWithin isTransportErr (ExistDBRepository.exists_doc c n) := by
  unfold ExistDBRepository.exists_doc
  apply errWithin_mono (fun e => (isTransportErr e ∧ ∀ s b, e ≠ PyErr.httpStatus s b)
      ∨ isTransportErr e)
  · intro e he
    rcases he with ⟨h1, _⟩ | h2
    · exact h1
    · exact h2
  · apply errWithin_tryHttpStatus
    · apply errWithin_bind
      · exact errWithin_netCall _ _ (Or.inl rfl)
      · intro r
        apply errWithin_bind
        · exact errWithin_rfs _ _ (fun s b => Or.inr ⟨s, b, rfl⟩)
        · intro u
          exact errWithin_pure _ _
    · intro s b
      apply errWithin_ite
      · exact errWithin_pure _ _
      · exact errWithin_raise _ _ (Or.inr ⟨s, b, rfl⟩)

theorem errWithin_create_collection_repo (c : String) :
    ErrWithin isTransportErr (ExistDBRepository.create_collection c) := by
  unfold ExistDBRepository.create_collection
  apply errWithin_bind
  · exact errWithin_collection_exists_repo c
  · intro present
    apply errWithin_ite
    · exact errWithin_pure _ _
    · apply errWithin_bind
      · exact errWithin_netCall _ _ (Or.inl rfl)
      · intro r
        exact errWithin_rfs _ _ (fun s b => Or.inr ⟨s, b, rfl⟩)

theorem errWithin_repo_put (c n content : String) :
    ErrWithin isTransportErr (ExistDBRepository.put c n content) := by
  unfold ExistDBRepository.put
  apply errWithin_bind
  · exact errWithin_create_collection_repo c
  · intro u
    apply errWithin_bind
    · exact errWithin_netCall _ _ (Or.inl rfl)
    · intro r
      exact errWithin_rfs _ _ (fun s b => Or.inr ⟨s, b, rfl⟩)

theorem errWithin_repo_list (c : String) :
    ErrWithin (fun e => isTransportErr e ∨ e = PyErr.xmlParseErr)
      (ExistDBRepository.list_documents c) := by
  unfold ExistDBRepository.list_documents
  apply errWithin_bind
  · exact errWithin_netCall _ _ (Or.inl (Or.inl rfl))
  · intro r
    apply errWithin_bind
    · exact errWithin_rfs _ _ (fun s b => Or.inl (Or.inr ⟨s, b, rfl⟩))
    · intro u
      cases hp : parseListing r.body with
      | some names =>
          simp only [hp]
          exact errWithin_pure _ _
      | none =>
          simp only [hp]
          exact errWithin_raise _ _ (Or.inr rfl)

/-- Exceptions `ExistDBService.document_exists` can raise: only
`DatabaseError` or an uncaught transport timeout. -/
theorem errWithin_document_exists_svc (c n : String) :
    ErrWithin (fun e => (∃ m, e = PyErr.databaseErr m) ∨ e = PyErr.timeoutErr)
      (ExistDBService.document_exists c n) := by
  unfold ExistDBService.document_exists
  apply errWithin_mono
    (fun e => (isTransportErr e ∧ ∀ s b, e ≠ PyErr.httpStatus s b)
      ∨ (∃ m, e = PyErr.databaseErr m))
  · intro e he
    rcases he with ⟨h1, h2⟩ | h3
    · rcases h1 with ht | ⟨s, b, hs⟩
      · exact Or.inr ht
      · exact absurd hs (h2 s b)
    · exact Or.inl h3
  · apply errWithin_tryHttpStatus
    · exact errWithin_exists_doc_repo c n
    · intro s b
      exact errWithin_raise _ _ ⟨_, rfl⟩

/-- Exceptions `ExistDBService.get_document` can raise. -/
theorem errWithin_get_document_svc (c n : String) :
    ErrWithin (fun e => (∃ m, e = PyErr.resourceNotFound m)
        ∨ (∃ m, e = PyErr.databaseErr m) ∨ e = PyErr.timeoutErr)
      (ExistDBService.get_document c n) := by
  unfold ExistDBService.get_document
  apply errWithin_mono
    (fun e => (isTransportErr e ∧ ∀ s b, e ≠ PyErr.httpStatus s b)
      ∨ ((∃ m, e = PyErr.resourceNotFound m) ∨ (∃ m, e = PyErr.databaseErr m)))
  · intro e he
    rcases he with ⟨h1, h2⟩ | h3 | h4
    · rcases h1 with ht | ⟨s, b, hs⟩
      · exact Or.inr (Or.inr ht)
      · exact absurd hs (h2 s b)
    · exact Or.inl h3
    · exact Or.inr (Or.inl h4)
  · apply errWithin_tryHttpStatus
    · exact errWithin_repo_get c n
    · intro s b
      apply errWithin_ite
      · exact errWithin_raise _ _ (Or.inl ⟨_, rfl⟩)
      · exact errWithin_raise _ _ (Or.inr ⟨_, rfl⟩)

/-- Exceptions `ExistDBService.update_document` can raise. -/
theorem errWithin_update_document_svc (c n content : String) :
    ErrWithin (fun e => (∃ m, e = PyErr.resourceNotFound m)
        ∨ (∃ m, e = PyErr.databaseErr m) ∨ e = PyErr.timeoutErr)
      (ExistDBService.update_document c n content) := by
  unfold ExistDBService.update_document
  apply errWithin_mono
    (fun e => (isTransportErr e ∧ ∀ s b, e ≠ PyErr.httpStatus s b)
      ∨ ((∃ m, e = PyErr.resourceNotFound m) ∨ (∃ m, e = PyErr.databaseErr m)))
  · intro e he
    rcases he with ⟨h1, h2⟩ | h3 | h4
    · rcases h1 with ht | ⟨s, b, hs⟩
      · exact Or.inr (Or.inr ht)
      · exact absurd hs (h2 s b)
    · exact Or.inl h3
    · exact Or.inr (Or.inl h4)
  · apply errWithin_tryHttpStatus
    · apply errWithin_bind
      · exact errWithin_repo_get c n
      · intro v
        exact errWithin_repo_put c n content
    · intro s b
      apply errWithin_ite
      · exact errWithin_raise _ _ (Or.inl ⟨_, rfl⟩)
      · exact errWithin_raise _ _ (Or.inr ⟨_, rfl⟩)

/-- Exceptions `ExistDBService.delete_document` can raise. -/
theorem errWithin_delete_document_svc (c n : String) :
    ErrWithin (fun e => (∃ m, e = PyErr.resourceNotFound m)
        ∨ (∃ m, e = PyErr.databaseErr m) ∨ e = PyErr.timeoutErr)
      (ExistDBService.delete_document c n) := by
  unfold ExistDBService.delete_document
  apply errWithin_mono
    (fun e => (isTransportErr e ∧ ∀ s b, e ≠ PyErr.httpStatus s b)
      ∨ ((∃ m, e = PyErr.resourceNotFound m) ∨ (∃ m, e = PyErr.databaseErr m)))
  · intro e he
    rcases he with ⟨h1, h2⟩ | h3 | h4
    · rcases h1 with ht | ⟨s, b, hs⟩
      · exact Or.inr (Or.inr ht)
      · exact absurd hs (h2 s b)
    · exact Or.inl h3
    · exact Or.inr (Or.inl h4)
  · apply errWithin_tryHttpStatus
    · exact errWithin_repo_delete c n
    · intro s b
      apply errWithin_ite
      · exact errWithin_raise _ _ (Or.inl ⟨_, rfl⟩)
      · exact errWithin_raise _ _ (Or.inr ⟨_, rfl⟩)

/-- Exceptions `ExistDBService.list_documents_in_collection` can raise. -/
theorem errWithin_list_documents_svc (c : String) :
    ErrWithin (fun e => (∃ m, e = PyErr.collectionNotFound m)
        ∨ (∃ m, e = PyErr.databaseErr m) ∨ e = PyErr.timeoutErr)
      (ExistDBService.list_documents_in_collection c) := by
  unfold ExistDBService.list_documents_in_collection
  apply errWithin_mono
    (fun e =>
      (((((fun e => isTransportErr e ∨ e = PyErr.xmlParseErr) e
            ∧ ∀ s b, e ≠ PyErr.httpStatus s b)
          ∨ ((∃ m, e = PyErr.collectionNotFound m) ∨ (∃ m, e = PyErr.databaseErr m)))
         ∧ e ≠ PyErr.xmlParseErr)
        ∨ (∃ m, e = PyErr.databaseErr m)))
  · intro e he
    rcases he with ⟨he1, hxml⟩ | hdb
    · rcases he1 with ⟨ht, h2⟩ | h3 | h4
      · rcases ht with (htime | ⟨s, b, hs⟩) | hx
        · exact Or.inr (Or.inr htime)
        · exact absurd hs (h2 s b)
        · exact absurd hx hxml
      · exact Or.inl h3
      · exact Or.inr (Or.inl h4)
    · exact Or.inr (Or.inl hdb)
  · apply errWithin_tryXmlParse
    · apply errWithin_tryHttpStatus
      · exact errWithin_repo_list c
      · intro s b
        apply errWithin_ite
        · exact errWithin_raise _ _ (Or.inl ⟨_, rfl⟩)
        · exact errWithin_raise _ _ (Or.inr ⟨_, rfl⟩)
    · exact errWithin_raise _ _ ⟨_, rfl⟩

/-- Exceptions `ExistDBService.create_document` can raise. -/
theorem errWithin_create_document_svc (c n content : String) :
    ErrWithin (fun e => (∃ m, e = PyErr.validation m)
        ∨ (∃ m, e = PyErr.resourceAlreadyExists m)
        ∨ (∃ m, e = PyErr.databaseErr m) ∨ e = PyErr.timeoutErr)
      (ExistDBService.create_document c n content) := by
  unfold ExistDBService.create_document
  apply errWithin_ite
  · exact errWithin_raise _ _ (Or.inl ⟨_, rfl⟩)
  · apply errWithin_bind
    · apply errWithin_mono
        (fun e => (∃ m, e = PyErr.databaseErr m) ∨ e = PyErr.timeoutErr)
      · intro e he
        rcases he with h1 | h2
        · exact Or.inr (Or.inr (Or.inl h1))
        · exact Or.inr (Or.inr (Or.inr h2))
      · exact errWithin_document_exists_svc c n
    · intro present
      apply errWithin_ite
      · exact errWithin_raise _ _ (Or.inr (Or.inl ⟨_, rfl⟩))
      · apply errWithin_mono
          (fun e => (isTransportErr e ∧ ∀ s b, e ≠ PyErr.httpStatus s b)
            ∨ (∃ m, e = PyErr.databaseErr m))
        · intro e he
          rcases he with ⟨h1, h2⟩ | h3
          · rcases h1 with ht | ⟨s, b, hs⟩
            · exact Or.inr (Or.inr (Or.inr ht))
            · exact absurd hs (h2 s b)
          · exact Or.inr (Or.inr (Or.inl h3))
        · apply errWithin_tryHttpStatus
          · exact errWithin_repo_put c n content
          · intro s b
            exact errWithin_raise _ _ ⟨_, rfl⟩

/-! ### Ideal-world run lemmas for the service -/

theorem document_exists_svc_ideal_present (st : Store) (tr : List Request)
    (c n v : String) (h : lookupDoc st c n = some v) :
    ExistDBService.document_exists c n ⟨st, [], tr⟩ =
      (Except.ok true, ⟨st, [], tr ++ [headDocReq c n]⟩) := by
  unfold ExistDBService.document_exists tryHttpStatus
  rw [exists_doc_ideal_present st tr c n v h]

theorem document_exists_svc_ideal_absent (st : Store) (tr : List Request)
    (c n : String) (h : lookupDoc st c n = none) :
    ExistDBService.document_exists c n ⟨st, [], tr⟩ =
      (Except.ok false, ⟨st, [], tr ++ [headDocReq c n]⟩) := by
  unfold ExistDBService.document_exists tryHttpStatus
  rw [exists_doc_ideal_absent st tr c n h]

theorem get_document_svc_ideal_present (st : Store) (tr : List Request)
    (c n v : String) (h : lookupDoc st c n = some v) :
    ExistDBService.get_document c n ⟨st, [], tr⟩ =
      (Except.ok v, ⟨st, [], tr ++ [getDocReq c n]⟩) := by
  unfold ExistDBService.get_document tryHttpStatus
  rw [repo_get_ideal_present st tr c n v h]

theorem get_document_svc_ideal_absent (st : Store) (tr : List Request)
    (c n : String) (h : lookupDoc st c n = none) :
    ExistDBService.get_document c n ⟨st, [], tr⟩ =
      (Except.error (PyErr.resourceNotFound "The document was not found."),
       ⟨st, [], tr ++ [getDocReq c n]⟩) := by
  unfold ExistDBService.get_document tryHttpStatus
  rw [repo_get_ideal_absent st tr c n h]
  simp [M.raise]

/-- C1 (claim): for valid inputs and a store where (collection, name) is
absent, `create_document` succeeds and an immediate `get_document` returns
exactly the content that was passed in (round-trip). -/
theorem C1_create_then_get_roundtrip (c n content : String) (st : Store)
    (hc : c ≠ "") (hn : n ≠ "") (hv : content ≠ "")
    (habs : lookupDoc st c n = none) :
    ∃ w1 : World,
      ExistDBService.create_document c n content ⟨st, [], []⟩ =
        (Except.ok (), w1) ∧
      (ExistDBService.get_document c n w1).1 = Except.ok content := by
  have hc2 : (c == "") = false := beq_eq_false_iff_ne.mpr hc
  have hn2 : (n == "") = false := beq_eq_false_iff_ne.mpr hn
  have hv2 : (content == "") = false := beq_eq_false_iff_ne.mpr hv
  refine ⟨⟨setDoc (addColl st c) c n content, [],
    [headDocReq c n]
      ++ (if hasColl st c then [headCollReq c] else [headCollReq c, putCollReq c])
      ++ [putDocReq c n content]⟩, ?_, ?_⟩
  · unfold ExistDBService.create_document
    simp only [hc2, hn2, hv2, Bool.or_self, Bool.or_false, Bool.false_or,
      Bool.false_eq_true, if_false]
    simp only [M.bind]
    rw [document_exists_svc_ideal_absent st [] c n habs]
    simp only [Bool.false_eq_true, if_false]
    unfold tryHttpStatus
    rw [repo_put_ideal st ([] ++ [headDocReq c n]) c n content]
    simp
  · rw [get_document_svc_ideal_present (v := content)]
    exact lookupDoc_setDoc_self (addColl st c) c n content

/-- C1 witness: the round-trip at a concrete input on the empty store. -/
theorem C1_create_then_get_roundtrip_witness :
    ∃ w1 : World,
      ExistDBService.create_document "texts" "poem1" "<tei/>" ⟨⟨[], []⟩, [], []⟩ =
        (Except.ok (), w1) ∧
      (ExistDBService.get_document "texts" "poem1" w1).1 = Except.ok "<tei/>" :=
  C1_create_then_get_roundtrip "texts" "poem1" "<tei/>" ⟨[], []⟩
    (by decide) (by decide) (by decide) (by decide)

theorem netCall_scripted_ideal (req : Request) (st : Store)
    (rest : List NetEvent) (tr : List Request) :
    netCall req ⟨st, NetEvent.ideal :: rest, tr⟩ =
      (Except.ok (idealRespond st req).1,
       ⟨(idealRespond st req).2, rest, tr ++ [req]⟩) := rfl

theorem create_document_ideal_present (st : Store) (tr : List Request)
    (c n v content : String)
    (hc : (c == "") = false) (hn : (n == "") = false)
    (hv : (content == "") = false) (hpres : lookupDoc st c n = some v) :
    ExistDBService.create_document c n content ⟨st, [], tr⟩ =
      (Except.error (PyErr.resourceAlreadyExists
        "Cannot create because the document already exists."),
       ⟨st, [], tr ++ [headDocReq c n]⟩) := by
  unfold ExistDBService.create_document
  simp only [hc, hn, hv, Bool.or_self, Bool.or_false, Bool.false_or,
    Bool.false_eq_true, if_false]
  simp only [M.bind]
  rw [document_exists_svc_ideal_present st tr c n v hpres]
  simp [M.raise]

theorem create_document_ideal_absent (st : Store) (tr : List Request)
    (c n content : String)
    (hc : (c == "") = false) (hn : (n == "") = false)
    (hv : (content == "") = false) (habs : lookupDoc st c n = none) :
    ExistDBService.create_document c n content ⟨st, [], tr⟩ =
      (Except.ok (),
       ⟨setDoc (addColl st c) c n content, [],
        tr ++ [headDocReq c n]
           ++ (if hasColl st c then [headCollReq c] else [headCollReq c, putCollReq c])
           ++ [putDocReq c n content]⟩) := by
  unfold ExistDBService.create_document
  simp only [hc, hn, hv, Bool.or_self, Bool.or_false, Bool.false_or,
    Bool.false_eq_true, if_false]
  simp only [M.bind]
  rw [document_exists_svc_ideal_absent st tr c n habs]
  simp only [Bool.false_eq_true, if_false]
  unfold tryHttpStatus
  rw [repo_put_ideal st (tr ++ [headDocReq c n]) c n content]

theorem update_document_svc_ideal_absent (st : Store) (tr : List Request)
    (c n content : String) (h : lookupDoc st c n = none) :
    ExistDBService.update_document c n content ⟨st, [], tr⟩ =
      (Except.error (PyErr.resourceNotFound
        "Cannot update because document was not found."),
       ⟨st, [], tr ++ [getDocReq c n]⟩) := by
  unfold ExistDBService.update_document tryHttpStatus
  simp only [M.bind]
  rw [repo_get_ideal_absent st tr c n h]
  simp [M.raise]

theorem update_document_svc_ideal_present (st : Store) (tr : List Request)
    (c n v content : String) (h : lookupDoc st c n = some v) :
    ExistDBService.update_document c n content ⟨st, [], tr⟩ =
      (Except.ok (),
       ⟨setDoc (addColl st c) c n content, [],
        tr ++ [getDocReq c n]
           ++ (if hasColl st c then [headCollReq c] else [headCollReq c, putCollReq c])
           ++ [putDocReq c n content]⟩) := by
  unfold ExistDBService.update_document tryHttpStatus
  simp only [M.bind]
  rw [repo_get_ideal_present st tr c n v h]
  simp [repo_put_ideal]

theorem delete_document_svc_ideal_absent (st : Store) (tr : List Request)
    (c n : String) (h : lookupDoc st c n = none) :
    ExistDBService.delete_document c n ⟨st, [], tr⟩ =
      (Except.error (PyErr.resourceNotFound
        "Cannot delete because document was not found."),
       ⟨st, [], tr ++ [delDocReq c n]⟩) := by
  unfold ExistDBService.delete_document tryHttpStatus
  rw [repo_delete_ideal_absent st tr c n h]
  simp [M.raise]

/-- C2 (claim): creating a document that already exists fails with
`ResourceAlreadyExistsError` and leaves the store untouched; in particular a
second `create_document` with the same (collection, name) fails this way and
does not alter what the first call wrote. -/
theorem C2_create_never_overwrites (c n v content1 content2 : String)
    (st : Store) (tr : List Request)
    (hc : c ≠ "") (hn : n ≠ "") (hv1 : content1 ≠ "") (hv2 : content2 ≠ "") :
    (lookupDoc st c n = some v →
      (ExistDBService.create_document c n content2 ⟨st, [], tr⟩).1 =
        Except.error (PyErr.resourceAlreadyExists
          "Cannot create because the document already exists.") ∧
      ((ExistDBService.create_document c n content2 ⟨st, [], tr⟩).2).store = st) ∧
    (lookupDoc st c n = none →
      ∀ w1 : World,
        ExistDBService.create_document c n content1 ⟨st, [], []⟩ =
          (Except.ok (), w1) →
        (ExistDBService.create_document c n content2 w1).1 =
          Except.error (PyErr.resourceAlreadyExists
            "Cannot create because the document already exists.") ∧
        lookupDoc ((ExistDBService.create_document c n content2 w1).2).store c n =
          some content1) := by
  have hc2 : (c == "") = false := beq_eq_false_iff_ne.mpr hc
  have hn2 : (n == "") = false := beq_eq_false_iff_ne.mpr hn
  have hv12 : (content1 == "") = false := beq_eq_false_iff_ne.mpr hv1
  have hv22 : (content2 == "") = false := beq_eq_false_iff_ne.mpr hv2
  constructor
  · intro hpres
    rw [create_document_ideal_present st tr c n v content2 hc2 hn2 hv22 hpres]
    exact ⟨rfl, rfl⟩
  · intro habs w1 hrun
    rw [create_document_ideal_absent st [] c n content1 hc2 hn2 hv12 habs] at hrun
    have hw1 : w1 = ⟨setDoc (addColl st c) c n content1, [],
        [] ++ [headDocReq c n]
           ++ (if hasColl st c then [headCollReq c] else [headCollReq c, putCollReq c])
           ++ [putDocReq c n content1]⟩ := by
      have := congrArg Prod.snd hrun
      simpa using this.symm
    subst hw1
    rw [create_document_ideal_present _ _ c n content1 content2 hc2 hn2 hv22
      (lookupDoc_setDoc_self (addColl st c) c n content1)]
    exact ⟨rfl, lookupDoc_setDoc_self (addColl st c) c n content1⟩

/-- C2 witness: the concrete second create, run on the exact world produced
by the first create on the empty store, fails and leaves the first content. -/
theorem C2_create_never_overwrites_witness :
    (ExistDBService.create_document "texts" "poem1" "<x/>"
        ⟨⟨["texts"], [(("texts", "poem1"), "<tei/>")]⟩, [],
         [headDocReq "texts" "poem1", headCollReq "texts", putCollReq "texts",
          putDocReq "texts" "poem1" "<tei/>"]⟩).1 =
      Except.error (PyErr.resourceAlreadyExists
        "Cannot create because the document already exists.") ∧
    lookupDoc ((ExistDBService.create_document "texts" "poem1" "<x/>"
        ⟨⟨["texts"], [(("texts", "poem1"), "<tei/>")]⟩, [],
         [headDocReq "texts" "poem1", headCollReq "texts", putCollReq "texts",
          putDocReq "texts" "poem1" "<tei/>"]⟩).2).store
        "texts" "poem1" = some "<tei/>" :=
  (C2_create_never_overwrites "texts" "poem1" "" "<tei/>" "<x/>" ⟨[], []⟩ []
    (by decide) (by decide) (by decide) (by decide)).2 (by decide)
    ⟨⟨["texts"], [(("texts", "poem1"), "<tei/>")]⟩, [],
     [headDocReq "texts" "poem1", headCollReq "texts", putCollReq "texts",
      putDocReq "texts" "poem1" "<tei/>"]⟩ rfl

/-- C3 (claim): `get_document`, `update_document` and `delete_document` on a
(collection, name) absent from the store each fail with
`ResourceNotFoundError`, because the store answers 404 for the absent
document path. -/
theorem C3_absent_document_not_found (c n content : String) (st : Store)
    (habs : lookupDoc st c n = none) :
    (ExistDBService.get_document c n ⟨st, [], []⟩).1 =
      Except.error (PyErr.resourceNotFound "The document was not found.") ∧
    (ExistDBService.update_document c n content ⟨st, [], []⟩).1 =
      Except.error (PyErr.resourceNotFound
        "Cannot update because document was not found.") ∧
    (ExistDBService.delete_document c n ⟨st, [], []⟩).1 =
      Except.error (PyErr.resourceNotFound
        "Cannot delete because document was not found.") := by
  refine ⟨?_, ?_, ?_⟩
  · rw [get_document_svc_ideal_absent st [] c n habs]
  · rw [update_document_svc_ideal_absent st [] c n content habs]
  · rw [delete_document_svc_ideal_absent st [] c n habs]

/-- C3 witness: concrete absent document on the empty store. -/
theorem C3_absent_document_not_found_witness :
    (ExistDBService.get_document "texts" "poem1" ⟨⟨[], []⟩, [], []⟩).1 =
      Except.error (PyErr.resourceNotFound "The document was not found.") ∧
    (ExistDBService.update_document "texts" "poem1" "<x/>" ⟨⟨[], []⟩, [], []⟩).1 =
      Except.error (PyErr.resourceNotFound
        "Cannot update because document was not found.") ∧
    (ExistDBService.delete_document "texts" "poem1" ⟨⟨[], []⟩, [], []⟩).1 =
      Except.error (PyErr.resourceNotFound
        "Cannot delete because document was not found.") :=
  C3_absent_document_not_found "texts" "poem1" "<x/>" ⟨[], []⟩ (by decide)

/-- C6 (claim): if any input to `create_document` is empty, it fails with
`ValidationError` and the world — store, script and trace alike — is left
completely unchanged: no repository or network call is made. -/
theorem C6_empty_input_validation (c n content : String) (w : World)
    (h : c = "" ∨ n = "" ∨ content = "") :
    ExistDBService.create_document c n content w =
      (Except.error (PyErr.validation
        "Collection, document_name, and content are required."), w) := by
  unfold ExistDBService.create_document
  have hcond : (c == "" || n == "" || content == "") = true := by
    rcases h with h | h | h <;> simp [h]
  rw [if_pos hcond]
  rfl

/-- C6 witness: empty content at a concrete world. -/
theorem C6_empty_input_validation_witness :
    ExistDBService.create_document "texts" "poem1" "" ⟨⟨[], []⟩, [], []⟩ =
      (Except.error (PyErr.validation
        "Collection, document_name, and content are required."),
       ⟨⟨[], []⟩, [], []⟩) :=
  C6_empty_input_validation "texts" "poem1" "" ⟨⟨[], []⟩, [], []⟩
    (Or.inr (Or.inr rfl))

/-- C4 (claim): `update_document` first performs a repository get solely to
confirm existence (its body is discarded); a 404 on that get becomes
`ResourceNotFoundError`; on success it delegates to the repository put with
the new content (the issued requests are exactly the confirming GET, then
the collection probe, then the PUT); and any other (non-404) fault from
either the get or the put becomes `DatabaseError`. -/
theorem C4_update_checks_then_puts (c n content v b : String) (st : Store)
    (s : Nat) :
    (lookupDoc st c n = none →
      ExistDBService.update_document c n content ⟨st, [], []⟩ =
        (Except.error (PyErr.resourceNotFound
          "Cannot update because document was not found."),
         ⟨st, [], [getDocReq c n]⟩)) ∧
    (lookupDoc st c n = some v →
      ∃ w1 : World,
        ExistDBService.update_document c n content ⟨st, [], []⟩ =
          (Except.ok (), w1) ∧
        lookupDoc w1.store c n = some content ∧
        w1.trace = [getDocReq c n]
          ++ (if hasColl st c then [headCollReq c] else [headCollReq c, putCollReq c])
          ++ [putDocReq c n content]) ∧
    (is2xx s = false → s ≠ 404 →
      (ExistDBService.update_document c n content
          ⟨st, [NetEvent.status s b], []⟩).1 =
        Except.error (PyErr.databaseErr
          "A database error occurred while updating the document.")) ∧
    (lookupDoc st c n = some v → is2xx s = false → s ≠ 404 →
      (ExistDBService.update_document c n content
          ⟨st, [NetEvent.ideal, NetEvent.ideal, NetEvent.status s b], []⟩).1 =
        Except.error (PyErr.databaseErr
          "A database error occurred while updating the document.")) := by
  have h200 : is2xx 200 = true := rfl
  have h201 : is2xx 201 = true := rfl
  have h404 : is2xx 404 = false := rfl
  refine ⟨?_, ?_, ?_, ?_⟩
  · intro habs
    rw [update_document_svc_ideal_absent st [] c n content habs]
    simp
  · intro hpres
    refine ⟨⟨setDoc (addColl st c) c n content, [],
      [] ++ [getDocReq c n]
        ++ (if hasColl st c then [headCollReq c] else [headCollReq c, putCollReq c])
        ++ [putDocReq c n content]⟩, ?_, ?_, ?_⟩
    · exact update_document_svc_ideal_present st [] c n v content hpres
    · exact lookupDoc_setDoc_self (addColl st c) c n content
    · simp
  · intro h2 hs
    have hs2 : (s == 404) = false := beq_eq_false_iff_ne.mpr hs
    simp [ExistDBService.update_document, tryHttpStatus, M.bind,
      ExistDBRepository.get, netCall, getDocReq, HttpResponse.raise_for_status,
      h2, hs2, M.raise, M.pure]
  · intro hpres h2 hs
    have hs2 : (s == 404) = false := beq_eq_false_iff_ne.mpr hs
    by_cases hcoll : hasColl st c = true
    · simp [ExistDBService.update_document, tryHttpStatus, M.bind,
        ExistDBRepository.get, ExistDBRepository.put,
        ExistDBRepository.create_collection, ExistDBRepository._collection_exists,
        netCall, idealRespond, getDocReq, headCollReq, putCollReq, putDocReq,
        HttpResponse.raise_for_status, hpres, hcoll, h200, h201, h404, h2, hs2,
        M.raise, M.pure]
    · simp [ExistDBService.update_document, tryHttpStatus, M.bind,
        ExistDBRepository.get, ExistDBRepository.put,
        ExistDBRepository.create_collection, ExistDBRepository._collection_exists,
        netCall, idealRespond, getDocReq, headCollReq, putCollReq, putDocReq,
        HttpResponse.raise_for_status, hpres, hcoll, h200, h201, h404, h2, hs2,
        M.raise, M.pure]

/-- C4 witness: the absent case and the injected-500 case at concrete
inputs. -/
theorem C4_update_checks_then_puts_witness :
    ExistDBService.update_document "texts" "poem1" "<x/>" ⟨⟨[], []⟩, [], []⟩ =
      (Except.error (PyErr.resourceNotFound
        "Cannot update because document was not found."),
       ⟨⟨[], []⟩, [], [getDocReq "texts" "poem1"]⟩) ∧
    (ExistDBService.update_document "texts" "poem1" "<x/>"
        ⟨⟨[], []⟩, [NetEvent.status 500 "boom"], []⟩).1 =
      Except.error (PyErr.databaseErr
        "A database error occurred while updating the document.") :=
  ⟨(C4_update_checks_then_puts "texts" "poem1" "<x/>" "" "boom" ⟨[], []⟩ 500).1
      (by decide),
   (C4_update_checks_then_puts "texts" "poem1" "<x/>" "" "boom" ⟨[], []⟩ 500).2.2.1
      (by decide) (by decide)⟩

/-- C7 (claim): the repository existence check issues a HEAD probe on the
document path and interprets the response status: 404 yields false, any 2xx
yields true, and any other status raises the fault (propagated, not
swallowed). -/
theorem C7_exists_head_probe (c n b : String) (st : Store) (tr : List Request)
    (s : Nat) :
    (s = 404 →
      ExistDBRepository.exists_doc c n ⟨st, [NetEvent.status s b], tr⟩ =
        (Except.ok false, ⟨st, [], tr ++ [headDocReq c n]⟩)) ∧
    (is2xx s = true →
      ExistDBRepository.exists_doc c n ⟨st, [NetEvent.status s b], tr⟩ =
        (Except.ok true, ⟨st, [], tr ++ [headDocReq c n]⟩)) ∧
    (is2xx s = false → s ≠ 404 →
      ExistDBRepository.exists_doc c n ⟨st, [NetEvent.status s b], tr⟩ =
        (Except.error (PyErr.httpStatus s b), ⟨st, [], tr ++ [headDocReq c n]⟩)) := by
  have h404 : is2xx 404 = false := rfl
  refine ⟨?_, ?_, ?_⟩
  · intro hs
    subst hs
    simp [ExistDBRepository.exists_doc, tryHttpStatus, M.bind, netCall,
      headDocReq, HttpResponse.raise_for_status, h404, M.pure, M.raise]
  · intro h2
    simp [ExistDBRepository.exists_doc, tryHttpStatus, M.bind, netCall,
      headDocReq, HttpResponse.raise_for_status, h2, M.pure, M.raise]
  · intro h2 hs
    have hs2 : (s == 404) = false := beq_eq_false_iff_ne.mpr hs
    simp [ExistDBRepository.exists_doc, tryHttpStatus, M.bind, netCall,
      headDocReq, HttpResponse.raise_for_status, h2, hs2, M.pure, M.raise]

/-- C7 witness: statuses 404, 204 and 500 at a concrete document path. -/
theorem C7_exists_head_probe_witness :
    ExistDBRepository.exists_doc "texts" "poem1"
        ⟨⟨[], []⟩, [NetEvent.status 404 ""], []⟩ =
      (Except.ok false, ⟨⟨[], []⟩, [], [headDocReq "texts" "poem1"]⟩) ∧
    ExistDBRepository.exists_doc "texts" "poem1"
        ⟨⟨[], []⟩, [NetEvent.status 204 ""], []⟩ =
      (Except.ok true, ⟨⟨[], []⟩, [], [headDocReq "texts" "poem1"]⟩) ∧
    ExistDBRepository.exists_doc "texts" "poem1"
        ⟨⟨[], []⟩, [NetEvent.status 500 "boom"], []⟩ =
      (Except.error (PyErr.httpStatus 500 "boom"),
       ⟨⟨[], []⟩, [], [headDocReq "texts" "poem1"]⟩) :=
  ⟨(C7_exists_head_probe "texts" "poem1" "" ⟨[], []⟩ [] 404).1 rfl,
   (C7_exists_head_probe "texts" "poem1" "" ⟨[], []⟩ [] 204).2.1 (by decide),
   (C7_exists_head_probe "texts" "poem1" "boom" ⟨[], []⟩ [] 500).2.2
     (by decide) (by decide)⟩

/-- C8 (claim): `delete_collection` returns a boolean rather than raising
when the collection is absent: a 404 DELETE response yields false (already
absent, nothing deleted), a successful DELETE yields true (the collection
was actually removed), and only other error statuses raise. -/
theorem C8_delete_collection_boolean (c b : String) (st : Store)
    (tr : List Request) (s : Nat) :
    (s = 404 →
      ExistDBRepository.delete_collection c ⟨st, [NetEvent.status s b], tr⟩ =
        (Except.ok false, ⟨st, [], tr ++ [delCollReq c]⟩)) ∧
    (is2xx s = true →
      ExistDBRepository.delete_collection c ⟨st, [NetEvent.status s b], tr⟩ =
        (Except.ok true, ⟨st, [], tr ++ [delCollReq c]⟩)) ∧
    (is2xx s = false → s ≠ 404 →
      ExistDBRepository.delete_collection c ⟨st, [NetEvent.status s b], tr⟩ =
        (Except.error (PyErr.httpStatus s b), ⟨st, [], tr ++ [delCollReq c]⟩)) ∧
    (hasColl st c = false →
      ExistDBRepository.delete_collection c ⟨st, [], tr⟩ =
        (Except.ok false, ⟨st, [], tr ++ [delCollReq c]⟩)) ∧
    (hasColl st c = true →
      ExistDBRepository.delete_collection c ⟨st, [], tr⟩ =
        (Except.ok true, ⟨removeColl st c, [], tr ++ [delCollReq c]⟩)) := by
  refine ⟨?_, ?_, ?_, ?_, ?_⟩
  · intro hs
    subst hs
    simp [ExistDBRepository.delete_collection, M.bind, netCall, delCollReq,
      HttpResponse.raise_for_status, M.pure, M.raise]
  · intro h2
    have hs2 : (s == 404) = false := by
      refine beq_eq_false_iff_ne.mpr ?_
      intro hs
      subst hs
      exact absurd h2 (by decide)
    simp [ExistDBRepository.delete_collection, M.bind, netCall, delCollReq,
      HttpResponse.raise_for_status, h2, hs2, M.pure, M.raise]
  · intro h2 hs
    have hs2 : (s == 404) = false := beq_eq_false_iff_ne.mpr hs
    simp [ExistDBRepository.delete_collection, M.bind, netCall, delCollReq,
      HttpResponse.raise_for_status, h2, hs2, M.pure, M.raise]
  · intro hcoll
    simp [ExistDBRepository.delete_collection, M.bind, netCall, idealRespond,
      delCollReq, HttpResponse.raise_for_status, hcoll, M.pure, M.raise]
  · intro hcoll
    simp [ExistDBRepository.delete_collection, M.bind, netCall, idealRespond,
      delCollReq, HttpResponse.raise_for_status, hcoll, M.pure, M.raise,
      is2xx]

/-- C8 witness: deleting the present collection succeeds with true, deleting
it again returns false rather than raising. -/
theorem C8_delete_collection_boolean_witness :
    ExistDBRepository.delete_collection "texts" ⟨⟨["texts"], []⟩, [], []⟩ =
      (Except.ok true, ⟨⟨[], []⟩, [], [delCollReq "texts"]⟩) ∧
    ExistDBRepository.delete_collection "texts" ⟨⟨[], []⟩, [], []⟩ =
      (Except.ok false, ⟨⟨[], []⟩, [], [delCollReq "texts"]⟩) := by
  constructor
  · have h := (C8_delete_collection_boolean "texts" "" ⟨["texts"], []⟩ [] 0).2.2.2.2
      (by decide)
    simpa [removeColl] using h
  · exact (C8_delete_collection_boolean "texts" "" ⟨[], []⟩ [] 0).2.2.2.1 (by decide)

/-- C9 (claim): the repository `put` first runs `create_collection` — which
probes existence with a HEAD and creates the collection only when absent,
doing nothing when present — and only then PUTs the document content with
the XML content-type header; consequently after a successful write the
parent collection exists and holds the document. -/
theorem C9_put_materializes_collection (c n content : String) (st : Store)
    (tr : List Request) :
    (hasColl st c = true →
      ExistDBRepository.create_collection c ⟨st, [], tr⟩ =
        (Except.ok (), ⟨st, [], tr ++ [headCollReq c]⟩)) ∧
    (hasColl st c = false →
      ExistDBRepository.create_collection c ⟨st, [], tr⟩ =
        (Except.ok (), ⟨addColl st c, [], tr ++ [headCollReq c, putCollReq c]⟩)) ∧
    (∃ w1 : World,
      ExistDBRepository.put c n content ⟨st, [], tr⟩ = (Except.ok (), w1) ∧
      hasColl w1.store c = true ∧
      lookupDoc w1.store c n = some content ∧
      w1.trace = tr
        ++ (if hasColl st c then [headCollReq c] else [headCollReq c, putCollReq c])
        ++ [putDocReq c n content]) := by
  refine ⟨create_collection_ideal_present st tr c,
          create_collection_ideal_absent st tr c, ?_⟩
  refine ⟨⟨setDoc (addColl st c) c n content, [],
    tr ++ (if hasColl st c then [headCollReq c] else [headCollReq c, putCollReq c])
       ++ [putDocReq c n content]⟩, ?_, ?_, ?_, rfl⟩
  · exact repo_put_ideal st tr c n content
  · rw [hasColl_setDoc]
    exact hasColl_addColl_self st c
  · exact lookupDoc_setDoc_self (addColl st c) c n content

/-- C9 witness: a concrete put on the empty store creates the collection
before writing the document. -/
theorem C9_put_materializes_collection_witness :
    ExistDBRepository.create_collection "texts" ⟨⟨["texts"], []⟩, [], []⟩ =
      (Except.ok (), ⟨⟨["texts"], []⟩, [], [headCollReq "texts"]⟩) ∧
    (∃ w1 : World,
      ExistDBRepository.put "texts" "poem1" "<tei/>" ⟨⟨[], []⟩, [], []⟩ =
        (Except.ok (), w1) ∧
      hasColl w1.store "texts" = true ∧
      lookupDoc w1.store "texts" "poem1" = some "<tei/>" ∧
      w1.trace = []
        ++ (if hasColl (⟨[], []⟩ : Store) "texts" then [headCollReq "texts"]
            else [headCollReq "texts", putCollReq "texts"])
        ++ [putDocReq "texts" "poem1" "<tei/>"]) :=
  ⟨(C9_put_materializes_collection "texts" "poem1" "<tei/>" ⟨["texts"], []⟩ []).1
      (by decide),
   (C9_put_materializes_collection "texts" "poem1" "<tei/>" ⟨[], []⟩ []).2.2⟩

/-- C10 (claim): only `create_document` validates its inputs.  The other five
service operations never raise `ValidationError` for any inputs or world —
in particular for empty collection or document-name strings — and with empty
strings they proceed straight to the repository, issuing the network request
with the empty path components. -/
theorem C10_only_create_validates (c n content : String) (w w2 : World)
    (e : PyErr) :
    (ExistDBService.get_document c n w = (Except.error e, w2) →
      ∀ m, e ≠ PyErr.validation m) ∧
    (ExistDBService.update_document c n content w = (Except.error e, w2) →
      ∀ m, e ≠ PyErr.validation m) ∧
    (ExistDBService.delete_document c n w = (Except.error e, w2) →
      ∀ m, e ≠ PyErr.validation m) ∧
    (ExistDBService.list_documents_in_collection c w = (Except.error e, w2) →
      ∀ m, e ≠ PyErr.validation m) ∧
    (ExistDBService.document_exists c n w = (Except.error e, w2) →
      ∀ m, e ≠ PyErr.validation m) ∧
    ((ExistDBService.get_document "" "" ⟨⟨[], []⟩, [], []⟩).2).trace =
      [getDocReq "" ""] ∧
    ((ExistDBService.update_document "" "" "" ⟨⟨[], []⟩, [], []⟩).2).trace =
      [getDocReq "" ""] ∧
    ((ExistDBService.delete_document "" "" ⟨⟨[], []⟩, [], []⟩).2).trace =
      [delDocReq "" ""] ∧
    ((ExistDBService.list_documents_in_collection "" ⟨⟨[], []⟩, [], []⟩).2).trace =
      [getCollReq ""] ∧
    ((ExistDBService.document_exists "" "" ⟨⟨[], []⟩, [], []⟩).2).trace =
      [headDocReq "" ""] := by
  refine ⟨?_, ?_, ?_, ?_, ?_, by decide, by decide, by decide, by decide, by decide⟩
  · intro hrun m
    rcases errWithin_get_document_svc c n w e w2 hrun with ⟨m', hm⟩ | ⟨m', hm⟩ | hm <;>
      (subst hm; intro hc; cases hc)
  · intro hrun m
    rcases errWithin_update_document_svc c n content w e w2 hrun with
      ⟨m', hm⟩ | ⟨m', hm⟩ | hm <;> (subst hm; intro hc; cases hc)
  · intro hrun m
    rcases errWithin_delete_document_svc c n w e w2 hrun with
      ⟨m', hm⟩ | ⟨m', hm⟩ | hm <;> (subst hm; intro hc; cases hc)
  · intro hrun m
    rcases errWithin_list_documents_svc c w e w2 hrun with
      ⟨m', hm⟩ | ⟨m', hm⟩ | hm <;> (subst hm; intro hc; cases hc)
  · intro hrun m
    rcases errWithin_document_exists_svc c n w e w2 hrun with ⟨m', hm⟩ | hm <;>
      (subst hm; intro hc; cases hc)

/-- C10 witness: the absent-document error of `get_document` at empty path
components is a `ResourceNotFoundError`, not a `ValidationError`. -/
theorem C10_only_create_validates_witness :
    ∀ m, PyErr.resourceNotFound "The document was not found." ≠ PyErr.validation m :=
  (C10_only_create_validates "" "" "" ⟨⟨[], []⟩, [], []⟩
    ⟨⟨[], []⟩, [], [getDocReq "" ""]⟩
    (PyErr.resourceNotFound "The document was not found.")).1 rfl

/-- C5 counterexample: a timeout on the network call inside `get_document`
crosses the service boundary as the raw transport exception
(`httpx.TimeoutException`, modelled as `timeoutErr`), which is not one of
the five domain fault kinds — the service translates only
`httpx.HTTPStatusError`, so the claim that every transport fault (timeouts
included) surfaces as a domain fault is false on the code. -/
theorem C5_timeout_escapes_raw :
    (ExistDBService.get_document "texts" "poem1"
        ⟨⟨[], []⟩, [NetEvent.timeout], []⟩).1 =
      Except.error PyErr.timeoutErr ∧
    isDomainFault PyErr.timeoutErr = false := by
  constructor
  · rfl
  · rfl

/-- C5 (amended): for each of the six service operations and every world,
any exception crossing the service boundary is either one of the five
domain fault kinds or the raw transport timeout; in particular a raw
`HTTPStatusError` (status code) or parse error never escapes — but a
timeout or connection failure propagates untranslated rather than becoming
`DatabaseError`. -/
theorem C5_amended_fault_boundary (c n content : String) (w w2 : World)
    (e : PyErr) :
    (ExistDBService.create_document c n content w = (Except.error e, w2) →
      isDomainFault e = true ∨ e = PyErr.timeoutErr) ∧
    (ExistDBService.get_document c n w = (Except.error e, w2) →
      isDomainFault e = true ∨ e = PyErr.timeoutErr) ∧
    (ExistDBService.update_document c n content w = (Except.error e, w2) →
      isDomainFault e = true ∨ e = PyErr.timeoutErr) ∧
    (ExistDBService.delete_document c n w = (Except.error e, w2) →
      isDomainFault e = true ∨ e = PyErr.timeoutErr) ∧
    (ExistDBService.list_documents_in_collection c w = (Except.error e, w2) →
      isDomainFault e = true ∨ e = PyErr.timeoutErr) ∧
    (ExistDBService.document_exists c n w = (Except.error e, w2) →
      isDomainFault e = true ∨ e = PyErr.timeoutErr) := by
  refine ⟨?_, ?_, ?_, ?_, ?_, ?_⟩
  · intro hrun
    rcases errWithin_create_document_svc c n content w e w2 hrun with
      ⟨m, hm⟩ | ⟨m, hm⟩ | ⟨m, hm⟩ | hm <;> subst hm
    · exact Or.inl rfl
    · exact Or.inl rfl
    · exact Or.inl rfl
    · exact Or.inr rfl
  · intro hrun
    rcases errWithin_get_document_svc c n w e w2 hrun with
      ⟨m, hm⟩ | ⟨m, hm⟩ | hm <;> subst hm
    · exact Or.inl rfl
    · exact Or.inl rfl
    · exact Or.inr rfl
  · intro hrun
    rcases errWithin_update_document_svc c n content w e w2 hrun with
      ⟨m, hm⟩ | ⟨m, hm⟩ | hm <;> subst hm
    · exact Or.inl rfl
    · exact Or.inl rfl
    · exact Or.inr rfl
  · intro hrun
    rcases errWithin_delete_document_svc c n w e w2 hrun with
      ⟨m, hm⟩ | ⟨m, hm⟩ | hm <;> subst hm
    · exact Or.inl rfl
    · exact Or.inl rfl
    · exact Or.inr rfl
  · intro hrun
    rcases errWithin_list_documents_svc c w e w2 hrun with
      ⟨m, hm⟩ | ⟨m, hm⟩ | hm <;> subst hm
    · exact Or.inl rfl
    · exact Or.inl rfl
    · exact Or.inr rfl
  · intro hrun
    rcases errWithin_document_exists_svc c n w e w2 hrun with ⟨m, hm⟩ | hm <;>
      subst hm
    · exact Or.inl rfl
    · exact Or.inr rfl

/-- C5 amended witness: the fault escaping `get_document` on an injected 500
response is a domain fault (`DatabaseError`). -/
theorem C5_amended_fault_boundary_witness :
    isDomainFault (PyErr.databaseErr
      "A database error occurred while fetching the document.") = true ∨
    PyErr.databaseErr "A database error occurred while fetching the document." =
      PyErr.timeoutErr :=
  (C5_amended_fault_boundary "texts" "poem1" "x" ⟨⟨[], []⟩, [NetEvent.status 500 "boom"], []⟩
    ⟨⟨[], []⟩, [], [getDocReq "texts" "poem1"]⟩
    (PyErr.databaseErr "A database error occurred while fetching the document.")).2.1
    rfl
